import Mathlib

/-!
Verification of the ChatbotRag repository (src/rag.py, src/utils.py, src/main.py)
against its natural-language specification.

Strings are modelled as `List Char` (Python `str` after UTF-8 decoding).
The Python standard-library `json` module (used by `rag.load_texts`,
`utils.load_history` and `utils.save_history`) is modelled explicitly:
`json_loads` is a recursive-descent reading of the JSON grammar as CPython's
`json.loads` accepts it, and `dumpHistory` reproduces the exact text produced
by `json.dump(history, f, indent=2, ensure_ascii=False)` on a list of
(question, answer) string pairs.  Two documented restrictions of the model:
JSON numbers are modelled only in their integer form (a fractional or
exponent part makes the parse fail, since IEEE floating point is outside the
embedding), and `\uXXXX` escapes denoting UTF-16 surrogate halves are
rejected (Lean `Char` ranges over Unicode scalar values only).  No claim
below depends on either corner.
-/

namespace ChatbotRag

/-- A decoded JSON value, as returned by Python's `json.loads`.
Objects are Python dicts: keys are distinct, listed in first-insertion
order, with the last duplicate's value winning (see `objCons`). -/
inductive JsonV where
  | null : JsonV
  | bool : Bool → JsonV
  | num : Int → JsonV
  | str : List Char → JsonV
  | arr : List JsonV → JsonV
  | obj : List (List Char × JsonV) → JsonV

/-- JSON insignificant whitespace, as CPython's scanner skips it. -/
def isJsonWs (c : Char) : Bool :=
  c = ' ' ∨ c = '\t' ∨ c = '\n' ∨ c = '\r'

/-- Skip leading JSON whitespace. -/
def skipWs : List Char → List Char
  | [] => []
  | c :: rest => if isJsonWs c then skipWs rest else c :: rest

/-- Value of one hexadecimal digit (either case), as in a `\uXXXX` escape. -/
def hexVal (c : Char) : Option Nat :=
  if '0' ≤ c ∧ c ≤ '9' then some (c.toNat - 48)
  else if 'a' ≤ c ∧ c ≤ 'f' then some (c.toNat - 87)
  else if 'A' ≤ c ∧ c ≤ 'F' then some (c.toNat - 55)
  else none

/-- Value of the four hex digits of a `\uXXXX` escape. -/
def hex4 (a b c d : Char) : Option Nat := do
  let va ← hexVal a
  let vb ← hexVal b
  let vc ← hexVal c
  let vd ← hexVal d
  pure (va * 4096 + vb * 256 + vc * 16 + vd)

/-- Body of a JSON string literal, after the opening quote: returns the
decoded characters and the input remaining after the closing quote.
Raw control characters in the literal are rejected (CPython strict mode);
`\uXXXX` escapes in the surrogate range are rejected (model restriction). -/
def parseStrBody : List Char → Option (List Char × List Char)
  | [] => none
  | c :: rest =>
    if c = '"' then some ([], rest)
    else if c = '\\' then
      match rest with
      | [] => none
      | e :: rest2 =>
        if e = '"' then (parseStrBody rest2).map (fun p => ('"' :: p.1, p.2))
        else if e = '\\' then (parseStrBody rest2).map (fun p => ('\\' :: p.1, p.2))
        else if e = '/' then (parseStrBody rest2).map (fun p => ('/' :: p.1, p.2))
        else if e = 'b' then (parseStrBody rest2).map (fun p => ('\x08' :: p.1, p.2))
        else if e = 'f' then (parseStrBody rest2).map (fun p => ('\x0c' :: p.1, p.2))
        else if e = 'n' then (parseStrBody rest2).map (fun p => ('\n' :: p.1, p.2))
        else if e = 'r' then (parseStrBody rest2).map (fun p => ('\x0d' :: p.1, p.2))
        else if e = 't' then (parseStrBody rest2).map (fun p => ('\t' :: p.1, p.2))
        else if e = 'u' then
          match rest2 with
          | h1 :: h2 :: h3 :: h4 :: rest3 =>
            match hex4 h1 h2 h3 h4 with
            | some n =>
              if n < 0xd800 ∨ 0xdfff < n then
                (parseStrBody rest3).map (fun p => (Char.ofNat n :: p.1, p.2))
              else none
            | none => none
          | _ => none
        else none
    else if c.toNat < 32 then none
    else (parseStrBody rest).map (fun p => (c :: p.1, p.2))

/-- Digits to a number, most significant first. -/
def natOfDigits (acc : Nat) : List Char → Nat
  | [] => acc
  | c :: rest => natOfDigits (acc * 10 + (c.toNat - 48)) rest

/-- After the integer part of a JSON number, a fractional or exponent part
would make the value a float; the model rejects it (see module comment). -/
def rejectFloat (n : Nat) (rest : List Char) : Option (Nat × List Char) :=
  match rest with
  | c :: _ => if c = '.' ∨ c = 'e' ∨ c = 'E' then none else some (n, rest)
  | [] => some (n, rest)

/-- Integer part of a JSON number starting at digit `d` (CPython's number
regex: a lone `0`, or a nonzero digit followed by digits). -/
def parseIntDigits (d : Char) (rest : List Char) : Option (Nat × List Char) :=
  if d = '0' then rejectFloat 0 rest
  else
    let p := rest.span (fun c => c.isDigit)
    rejectFloat (natOfDigits (d.toNat - 48) p.1) p.2

/-- A JSON number token starting at character `c` (integer form only). -/
def parseNumTok (c : Char) (rest : List Char) : Option (JsonV × List Char) :=
  if c = '-' then
    match rest with
    | d :: rest2 =>
      if d.isDigit then
        (parseIntDigits d rest2).map (fun p => (JsonV.num (-(p.1 : Int)), p.2))
      else none
    | [] => none
  else if c.isDigit then
    (parseIntDigits c rest).map (fun p => (JsonV.num (p.1 : Int), p.2))
  else none

/-- Python dict insertion discipline for a member `(k, v)` read before the
members of `rest`: the key keeps its first-insertion position, and a later
duplicate's value overrides an earlier one. -/
def objCons (k : List Char) (v : JsonV) (rest : List (List Char × JsonV)) :
    List (List Char × JsonV) :=
  match rest.find? (fun p => p.1 = k) with
  | some p => (k, p.2) :: rest.filter (fun q => ¬ q.1 = k)
  | none => (k, v) :: rest

mutual

/-- One JSON value, fuelled recursive descent (fuel only bounds nesting;
`json_loads` supplies more fuel than any input can consume). -/
def parseVal : Nat → List Char → Option (JsonV × List Char)
  | 0, _ => none
  | fuel + 1, s =>
    match skipWs s with
    | '\x7b' :: rest => parseObjBody fuel rest
    | '[' :: rest => parseArrBody fuel rest
    | '"' :: rest => (parseStrBody rest).map (fun p => (JsonV.str p.1, p.2))
    | 't' :: 'r' :: 'u' :: 'e' :: rest => some (JsonV.bool true, rest)
    | 'f' :: 'a' :: 'l' :: 's' :: 'e' :: rest => some (JsonV.bool false, rest)
    | 'n' :: 'u' :: 'l' :: 'l' :: rest => some (JsonV.null, rest)
    | c :: rest => parseNumTok c rest
    | [] => none

/-- Array items after the opening bracket. -/
def parseArrBody : Nat → List Char → Option (JsonV × List Char)
  | 0, _ => none
  | fuel + 1, s =>
    match skipWs s with
    | [] => none
    | c :: rest =>
      if c = ']' then some (JsonV.arr [], rest)
      else
        (parseVal fuel (c :: rest)).bind (fun p =>
          (parseArrTail fuel p.2).map (fun q => (JsonV.arr (p.1 :: q.1), q.2)))

/-- Array continuation: either a comma and another item, or the close. -/
def parseArrTail : Nat → List Char → Option (List JsonV × List Char)
  | 0, _ => none
  | fuel + 1, s =>
    match skipWs s with
    | [] => none
    | c :: rest =>
      if c = ',' then
        (parseVal fuel rest).bind (fun p =>
          (parseArrTail fuel p.2).map (fun q => (p.1 :: q.1, q.2)))
      else if c = ']' then some ([], rest)
      else none

/-- An object member `"key": value` starting at the key's opening quote
(already consumed), followed by the object continuation. -/
def parseObjMember : Nat → List Char → Option ((List Char × JsonV) × List Char)
  | 0, _ => none
  | fuel + 1, s =>
    (parseStrBody s).bind (fun k =>
      match skipWs k.2 with
      | [] => none
      | c :: rest =>
        if c = ':' then
          (parseVal fuel rest).map (fun v => ((k.1, v.1), v.2))
        else none)

/-- Object members after the opening brace. -/
def parseObjBody : Nat → List Char → Option (JsonV × List Char)
  | 0, _ => none
  | fuel + 1, s =>
    match skipWs s with
    | [] => none
    | c :: rest =>
      if c = '\x7d' then some (JsonV.obj [], rest)
      else if c = '"' then
        (parseObjMember fuel rest).bind (fun m =>
          (parseObjTail fuel m.2).map (fun q => (JsonV.obj (objCons m.1.1 m.1.2 q.1), q.2)))
      else none

/-- Object continuation: either a comma and another member, or the close. -/
def parseObjTail : Nat → List Char → Option (List (List Char × JsonV) × List Char)
  | 0, _ => none
  | fuel + 1, s =>
    match skipWs s with
    | [] => none
    | c :: rest =>
      if c = ',' then
        match skipWs rest with
        | [] => none
        | c2 :: rest2 =>
          if c2 = '"' then
            (parseObjMember fuel rest2).bind (fun m =>
              (parseObjTail fuel m.2).map (fun q => (objCons m.1.1 m.1.2 q.1, q.2)))
          else none
      else if c = '\x7d' then some ([], rest)
      else none

end

/-- Model of Python `json.loads`: parse one JSON document, allow trailing
whitespace only.  The fuel `s.length + 3` exceeds what any input can use,
since every level of nesting consumes at least one input character. -/
def json_loads (s : List Char) : Option JsonV :=
  match parseVal (s.length + 3) s with
  | some (v, rest) => if skipWs rest = [] then some v else none
  | none => none

/-! ### Python value semantics used by `rag.load_texts`

`load_texts` manipulates the decoded JSON values with plain Python
operations: `dict.get`, truthiness tests, `[0]` indexing, `"sep".join`,
and f-string interpolation (`str()`).  Each is modelled below; an
operation that raises in Python returns `none` (the exception is then
absorbed by the bare `except: continue` of the per-line loop). -/

/-- Python `d.get(k, default)` on a decoded JSON dict. -/
def dictGet (kvs : List (List Char × JsonV)) (k : List Char) (d : JsonV) : JsonV :=
  match kvs.find? (fun p => p.1 = k) with
  | some p => p.2
  | none => d

/-- Whether key `k` is present in a decoded JSON dict. -/
def hasKey (kvs : List (List Char × JsonV)) (k : List Char) : Bool :=
  (kvs.find? (fun p => p.1 = k)).isSome

/-- Python `.get` exists only on dicts; on any other value the attribute
access raises `AttributeError`. -/
def asDict : JsonV → Option (List (List Char × JsonV))
  | JsonV.obj kvs => some kvs
  | _ => none

/-- Python truthiness of a decoded JSON value (`if props.get(...)`):
`None`, `False`, `0`, `""`, `[]` and `` {} `` are falsy. -/
def jsonTruthy : JsonV → Bool
  | JsonV.null => false
  | JsonV.bool b => b
  | JsonV.num n => n ≠ 0
  | JsonV.str s => !s.isEmpty
  | JsonV.arr xs => !xs.isEmpty
  | JsonV.obj kvs => !kvs.isEmpty

/-- Python `v[0]`: first element of a list, first character of a string
(as a one-character string); anything else raises (`TypeError`, or
`KeyError` on a dict, whose JSON keys are never the integer `0`). -/
def pyIndex0 : JsonV → Option JsonV
  | JsonV.arr (x :: _) => some x
  | JsonV.str (c :: _) => some (JsonV.str [c])
  | _ => none

/-- Concatenation of per-character expansions (used by the escapers). -/
def escWith (f : Char → List Char) : List Char → List Char
  | [] => []
  | c :: s => f c ++ escWith f s

/-- Lowercase hexadecimal digit. -/
def hexDig (n : Nat) : Char :=
  if n < 10 then Char.ofNat (48 + n) else Char.ofNat (87 + n)

/-- Quote character chosen by Python `repr` for a string: single quotes,
unless the string contains one and no double quote. -/
def pyQuote (s : List Char) : Char :=
  if s.contains '\'' ∧ ¬ s.contains '"' then '"' else '\''

/-- One character inside a Python string `repr` with quote `q`.  (Escaping
of non-printable characters above 0x7f is not modelled; no claim touches
it.) -/
def pyEscRepr (q : Char) (c : Char) : List Char :=
  if c = '\\' then ['\\', '\\']
  else if c = q then ['\\', q]
  else if c = '\n' then ['\\', 'n']
  else if c = '\x0d' then ['\\', 'r']
  else if c = '\t' then ['\\', 't']
  else if c.toNat < 32 ∨ c.toNat = 127 then
    ['\\', 'x', hexDig (c.toNat / 16), hexDig (c.toNat % 16)]
  else [c]

/-- Python `repr` of a string. -/
def pyStrRepr (s : List Char) : List Char :=
  pyQuote s :: escWith (pyEscRepr (pyQuote s)) s ++ [pyQuote s]

mutual

/-- Python `str()` of a decoded JSON value, as f-string interpolation
applies it. -/
def pyStr : JsonV → List Char
  | JsonV.null => "None".data
  | JsonV.bool true => "True".data
  | JsonV.bool false => "False".data
  | JsonV.num n => (toString n).data
  | JsonV.str s => s
  | JsonV.arr xs => '[' :: pyReprList xs ++ [']']
  | JsonV.obj kvs => '\x7b' :: pyReprItems kvs ++ ['\x7d']

/-- Python `repr` of a decoded JSON value (containers display their
elements with `repr`, not `str`). -/
def pyRepr : JsonV → List Char
  | JsonV.str s => pyStrRepr s
  | JsonV.null => "None".data
  | JsonV.bool true => "True".data
  | JsonV.bool false => "False".data
  | JsonV.num n => (toString n).data
  | JsonV.arr xs => '[' :: pyReprList xs ++ [']']
  | JsonV.obj kvs => '\x7b' :: pyReprItems kvs ++ ['\x7d']

/-- Comma-separated `repr`s of list elements. -/
def pyReprList : List JsonV → List Char
  | [] => []
  | [x] => pyRepr x
  | x :: rest => pyRepr x ++ ',' :: ' ' :: pyReprList rest

/-- Comma-separated `repr(k): repr(v)` renderings of dict members. -/
def pyReprItems : List (List Char × JsonV) → List Char
  | [] => []
  | [p] => pyStrRepr p.1 ++ ':' :: ' ' :: pyRepr p.2
  | p :: rest => pyStrRepr p.1 ++ ':' :: ' ' :: pyRepr p.2 ++ ',' :: ' ' :: pyReprItems rest

end

/-- The elements of a list, required to all be strings (otherwise
`str.join` raises `TypeError`). -/
def allStrs : List JsonV → Option (List (List Char))
  | [] => some []
  | JsonV.str s :: rest => (allStrs rest).map (fun t => s :: t)
  | _ => none

/-- Python `sep.join(v)`: joins a list of strings; iterating a string
yields its characters as one-character strings; iterating a dict yields
its keys (always strings here); any other operand raises `TypeError`. -/
def pyJoin (sep : List Char) : JsonV → Option (List Char)
  | JsonV.arr xs => (allStrs xs).map (fun ss => (ss.intersperse sep).flatten)
  | JsonV.str s => some (((s.map (fun c => [c])).intersperse sep).flatten)
  | JsonV.obj kvs => some (((kvs.map (fun p => p.1)).intersperse sep).flatten)
  | _ => none

/-! ### src/rag.py -/

/-- `EMBEDDING_MODEL = "all-MiniLM-L6-v2"` -/
def EMBEDDING_MODEL : List Char := "all-MiniLM-L6-v2".data

/-- `OLLAMA_MODEL = "mistral"` -/
def OLLAMA_MODEL : List Char := "mistral".data

/-- `TOP_K = 10` (number of documents retrieved per question).
`TEMPERATURE = 0.1` is a float and is not modelled; no claim touches it. -/
def TOP_K : Nat := 10

/-- `CUSTOM_PROMPT_TEMPLATE` (the literal instruction template). -/
def CUSTOM_PROMPT_TEMPLATE : List Char :=
  ("\nTu es un expert spécialisé dans les personnalités politiques mondiales.  \n\n**Extrais les informations suivantes si disponibles dans le contexte:**\n- Nom complet\n- Date de naissance\n- Genre\n- Pays\n- Région/Subdivision\n- Postes politiques occupés\n\n**Règles:**\n1. Utilise UNIQUEMENT les informations du contexte\n2. Si la question NE CONCERNE PAS une personnalité politique, réponds UNIQUEMENT:\n   \"Désolé, je ne peux répondre qu\x27aux questions concernant des personnalités politiques.\"\n3. Si la personnalité demandée n\x27est pas présente dans la base, réponds:\n   \"Le nom demandé n\x27est pas disponible dans la base.\"\n4. Pour les champs manquants, indique \"Non spécifié\"\n5. Présente les postes politiques sous forme de liste à puces\n6. Structure la réponse clairement avec les sections suivantes:\n\nStructure de réponse OBLIGATOIRE:\nNom: [nom complet]\nNaissance: [date de naissance]\nGenre: [genre]\nPays: [pays]\nRégion: [région/subdivision]\nPostes:\n• [poste 1]\n• [poste 2]\n• ...\n\nContexte:\n\x7bcontext\x7d\n\nQuestion: \x7bquestion\x7d\n\nRéponse:\n").data

/-- The sentinel the loader substitutes for a missing birth date. -/
def nonSpecifie : List Char := "Non spécifié".data

/-- The triple-quoted f-string of `load_texts` (sixteen spaces of literal
indentation on every line, a leading newline after the opening quotes and
a trailing indented line before the closing quotes). -/
def renderBlock (name birth gender country sub_area positions : List Char) : List Char :=
  "\n                Nom: ".data ++ name ++
  "\n                Naissance: ".data ++ birth ++
  "\n                Genre: ".data ++ gender ++
  "\n                Pays: ".data ++ country ++
  "\n                Région: ".data ++ sub_area ++
  "\n                Postes: ".data ++ positions ++
  "\n                ".data

/-- Body of the per-line `try:` block of `load_texts`, applied to the
decoded JSON value of one corpus line.  `none` models any exception inside
the block, which the bare `except: continue` silently drops. -/
def processEntry (entry : JsonV) : Option (List Char) := do
  let ekvs ← asDict entry
  let props := dictGet ekvs "properties".data (JsonV.obj [])
  let pkvs ← asDict props
  let name := pyStr (dictGet ekvs "caption_latin".data (JsonV.str "Inconnu".data))
  let bd := dictGet pkvs "birthDate".data JsonV.null
  let birth ← if jsonTruthy bd then (pyIndex0 bd).map pyStr else some nonSpecifie
  let positions ← pyJoin "; ".data (dictGet pkvs "position".data (JsonV.arr []))
  let country ← pyJoin " ".data (dictGet pkvs "country".data (JsonV.arr []))
  let sub_area ← pyJoin " ".data (dictGet pkvs "subnationalArea".data (JsonV.arr []))
  let gender ← pyJoin " ".data (dictGet pkvs "gender".data (JsonV.arr []))
  pure (renderBlock name birth gender country sub_area positions)

/-- One corpus line: `json.loads(line)` then the extraction block; `none`
when either step raises. -/
def processLine (line : List Char) : Option (List Char) :=
  (json_loads line).bind processEntry

/-- Python text-file iteration: split after each newline, keeping the
newline; a final unterminated segment is yielded if nonempty. -/
def pyLinesAux (cur : List Char) : List Char → List (List Char)
  | [] => if cur.isEmpty then [] else [cur.reverse]
  | c :: rest =>
    if c = '\n' then (cur.reverse ++ ['\n']) :: pyLinesAux [] rest
    else pyLinesAux (c :: cur) rest

/-- The lines of a file's contents, as `for line in f` yields them. -/
def pyLines (s : List Char) : List (List Char) := pyLinesAux [] s

/-- `load_texts(json_file)`: the corpus file is `none` when
`os.path.exists` is false, otherwise its decoded contents.  Each line is
parsed and formatted; a line whose processing raises is skipped. -/
def load_texts (corpus : Option (List Char)) : List (List Char) :=
  match corpus with
  | none => []
  | some content => (pyLines content).filterMap processLine

/-- A Chroma vector index: either the persisted one reloaded from
`chroma_dir`, or one freshly built from the given texts and persisted
there.  (The vector store itself is an external dependency; which of the
two constructors ran, and from which inputs, is what the claims are
about.) -/
inductive ChromaIndex where
  | loadExisting (dir : List Char)
  | buildFrom (texts : List (List Char)) (dir : List Char)

/-- `build_or_load_chroma(texts, embeddings, chroma_dir)`.  `dirExists`
models `os.path.exists(chroma_dir)` and `listing` models
`os.listdir(chroma_dir)` (meaningful only when the directory exists, as
the short-circuit `and` guarantees). -/
def build_or_load_chroma (texts : List (List Char)) (dirExists : Bool)
    (listing : List (List Char)) (chroma_dir : List Char) : Option ChromaIndex :=
  if dirExists && !listing.isEmpty then some (ChromaIndex.loadExisting chroma_dir)
  else if !texts.isEmpty then some (ChromaIndex.buildFrom texts chroma_dir)
  else none

/-- `ChatOllama(model=OLLAMA_MODEL, temperature=TEMPERATURE)`: an always
truthy client object (construction does not contact the server). -/
structure LLM where
  model : List Char

/-- `load_llm()` -/
def load_llm : LLM := ⟨OLLAMA_MODEL⟩

/-- `PromptTemplate(template=..., input_variables=["context", "question"])` -/
structure PromptTemplate where
  template : List Char
  input_variables : List (List Char)

/-- `QA_PROMPT` of `create_rag_chain`. -/
def QA_PROMPT : PromptTemplate :=
  ⟨CUSTOM_PROMPT_TEMPLATE, ["context".data, "question".data]⟩

/-- The configuration `create_rag_chain` hands to
`ConversationalRetrievalChain.from_llm`. -/
structure RagChain where
  llm : LLM
  index : ChromaIndex
  k : Nat
  return_source_documents : Bool
  combine_docs_prompt : PromptTemplate

/-- `create_rag_chain(llm, chroma_index)`: retriever over the index with
`search_kwargs={"k": TOP_K}`, `return_source_documents=False`, and the
custom combine prompt. -/
def create_rag_chain (llm : LLM) (chroma_index : ChromaIndex) : RagChain :=
  ⟨llm, chroma_index, TOP_K, false, QA_PROMPT⟩

/-- A langchain `Document` as the retriever returns it. -/
structure LCDocument where
  page_content : List Char

/-- A `HumanMessage` or `AIMessage` of the chat history. -/
inductive ChatMsg where
  | human (content : List Char)
  | ai (content : List Char)

/-- The dict returned by a successful `rag_chain.invoke`: the `"answer"`
entry, and the `"source_documents"` entry when the chain was configured
to include it (`result.get("source_documents", [])` reads it with `[]`
as default). -/
structure ChainOutput where
  answer : List Char
  source_documents : Option (List LCDocument)

/-- The argument dict of `rag_chain.invoke`. -/
structure RagQuery where
  question : List Char
  chat_history : List ChatMsg

/-- `generate_rag_response(rag_chain, prompt, chat_history)`: the chain
invocation is passed as a function into `Except`; `Except.error e` models
an exception with message `e` (`str(e)`), which the handler converts into
the error-marker answer and an empty document list. -/
def generate_rag_response (invoke : RagQuery → Except (List Char) ChainOutput)
    (prompt : List Char) (chat_history : List ChatMsg) : List Char × List LCDocument :=
  match invoke ⟨prompt, chat_history⟩ with
  | Except.ok r => (r.answer, r.source_documents.getD [])
  | Except.error e => ("Erreur lors du traitement: ".data ++ e, [])

/-- The external collaborators a `ConversationalRetrievalChain` run calls
into: the question-condensing LLM pass, the retriever's similarity
search, and the answering LLM pass.  Each may fail with an exception
message. -/
structure ChainEnv where
  condense : List Char → List ChatMsg → Except (List Char) (List Char)
  retrieve : List Char → Except (List Char) (List LCDocument)
  answerOf : List Char → List LCDocument → Except (List Char) (List Char)

/-- Behaviour of langchain's `ConversationalRetrievalChain` (an external
library, modelled from its documented contract): with a nonempty chat
history the question is first condensed, the retriever returns at most
`k` documents, the combine step produces the answer, and the output dict
carries `source_documents` only when `return_source_documents` was set. -/
def chainInvoke (chain : RagChain) (env : ChainEnv) (q : RagQuery) :
    Except (List Char) ChainOutput :=
  match (if q.chat_history.isEmpty then Except.ok q.question
         else env.condense q.question q.chat_history) with
  | Except.error e => Except.error e
  | Except.ok q' =>
    match env.retrieve q' with
    | Except.error e => Except.error e
    | Except.ok docs =>
      match env.answerOf q' (docs.take chain.k) with
      | Except.error e => Except.error e
      | Except.ok a =>
        Except.ok ⟨a, if chain.return_source_documents
                      then some (docs.take chain.k) else none⟩

/-- `initialize_rag_system(chroma_dir, json_file)`.  The corpus argument
is as in `load_texts`.  `load_llm` returns an always truthy object, so
`if not chroma_index or not llm` reduces to the index check. -/
def initialize_rag_system (chroma_dir : List Char) (corpus : Option (List Char))
    (dirExists : Bool) (listing : List (List Char)) : Option RagChain :=
  let texts := load_texts corpus
  match build_or_load_chroma texts dirExists listing chroma_dir with
  | none => none
  | some idx => some (create_rag_chain load_llm idx)

/-! ### src/utils.py

The filesystem is a map from paths to decoded file contents; `none` is an
absent (or unreadable) file. -/

/-- Paths to decoded text contents. -/
abbrev FS := List Char → Option (List Char)

/-- One character of CPython's JSON string escaping with
`ensure_ascii=False`: quote, backslash and the named control characters
get two-character escapes, the remaining control characters get
`\u00xx` (lowercase hex), everything else is emitted literally. -/
def escChar (c : Char) : List Char :=
  if c = '"' then ['\\', '"']
  else if c = '\\' then ['\\', '\\']
  else if c = '\x08' then ['\\', 'b']
  else if c = '\x0c' then ['\\', 'f']
  else if c = '\n' then ['\\', 'n']
  else if c = '\x0d' then ['\\', 'r']
  else if c = '\t' then ['\\', 't']
  else if c.toNat < 32 then ['\\', 'u', '0', '0', hexDig (c.toNat / 16), hexDig (c.toNat % 16)]
  else [c]

/-- CPython's JSON escaping of a whole string (`ensure_ascii=False`). -/
def escString : List Char → List Char := escWith escChar

/-- The characters of a dumped `[question, answer]` pair after its
opening bracket (written out character by character so that the parsing
lemmas align syntactically). -/
def dumpPairTail (p : List Char × List Char) : List Char :=
  '\n' :: ' ' :: ' ' :: ' ' :: ' ' :: '"' ::
  (escString p.1 ++
   ('"' :: ',' :: '\n' :: ' ' :: ' ' :: ' ' :: ' ' :: '"' ::
    (escString p.2 ++
     ('"' :: '\n' :: ' ' :: ' ' :: ']' :: []))))

/-- One `[question, answer]` pair as `json.dump(..., indent=2,
ensure_ascii=False)` lays it out at nesting depth one:
`  [\n    "<q>",\n    "<a>"\n  ]`. -/
def dumpPair (p : List Char × List Char) : List Char :=
  ' ' :: ' ' :: '[' :: dumpPairTail p

/-- The remaining pairs, each preceded by the `,\n` item separator. -/
def dumpTail : List (List Char × List Char) → List Char
  | [] => []
  | p :: rest => ',' :: '\n' :: (dumpPair p ++ dumpTail rest)

/-- The exact text `json.dump(history, f, indent=2, ensure_ascii=False)`
writes for a list of (question, answer) string pairs. -/
def dumpHistory : List (List Char × List Char) → List Char
  | [] => '[' :: ']' :: []
  | p :: rest => '[' :: '\n' :: (dumpPair p ++ (dumpTail rest ++ ('\n' :: ']' :: [])))

/-- `save_history(history, history_file)`: full rewrite of the file. -/
def save_history (history : List (List Char × List Char)) (history_file : List Char)
    (fs : FS) : FS :=
  fun p => if p = history_file then some (dumpHistory history) else fs p

/-- `load_history(history_file)`: the parsed JSON value of the file, or
the empty Python list when the file is absent or anything in the
`try:` block raises (the bare `except:` catches every fault). -/
def load_history (history_file : List Char) (fs : FS) : JsonV :=
  match fs history_file with
  | some content => (json_loads content).getD (JsonV.arr [])
  | none => JsonV.arr []

/-! ### src/main.py -/

/-- `CHROMA_DIR = "chroma_index"` -/
def CHROMA_DIR : List Char := "chroma_index".data

/-- `JSON_FILE = "fichierfinal_nettoye.json"` -/
def JSON_FILE : List Char := "fichierfinal_nettoye.json".data

/-- `HISTORY_FILE = "history.json"` -/
def HISTORY_FILE : List Char := "history.json".data

/-- What `main` does after `initialize_rag_system`: on `None` it shows
the startup error and returns before the chat interface is rendered or
any question handled; otherwise the service is up with the chain. -/
inductive StartupOutcome where
  | initError
  | ready (chain : RagChain)

/-- The startup path of `main` (lines 234-237). -/
def mainStartup (corpus : Option (List Char)) (dirExists : Bool)
    (listing : List (List Char)) : StartupOutcome :=
  match initialize_rag_system CHROMA_DIR corpus dirExists listing with
  | none => StartupOutcome.initError
  | some c => StartupOutcome.ready c

/-- The Streamlit session state fields the question flow touches.
`current_conversation` holds (role, message, timestamp) triples. -/
structure SessionState where
  history : List (List Char × List Char)
  current_conversation : List (List Char × List Char × List Char)
  processing : Bool
  transcribed_text : List Char
  input_reset_counter : Nat
  last_retrieved : List LCDocument

/-- Result of `process_question`: its boolean return value, whether
`st.warning` fired, and the session state afterwards. -/
structure ProcessOutcome where
  proceed : Bool
  warned : Bool
  state : SessionState

/-- `process_question()`: `if not prompt` rejects exactly the empty
string (Python string truthiness); otherwise the user turn is appended
and the input/processing flags are updated. -/
def process_question (prompt : List Char) (ts : List Char) (s : SessionState) :
    ProcessOutcome :=
  if prompt.isEmpty then ⟨false, true, s⟩
  else
    ⟨true, false,
     { s with
        current_conversation := s.current_conversation ++ [("user".data, prompt, ts)],
        processing := true,
        input_reset_counter := s.input_reset_counter + 1,
        transcribed_text := [],
        last_retrieved := [] }⟩

/-- `handle_response(rag_chain)`: re-reads the prompt from the last
conversation turn, converts the saved history to alternating
Human/AI messages, generates, appends the AI turn and the history pair,
rewrites the history file, and stores the returned documents. -/
def handle_response (invoke : RagQuery → Except (List Char) ChainOutput)
    (ts : List Char) (s : SessionState) (fs : FS) : SessionState × FS :=
  let prompt := (s.current_conversation.getLastD ([], [], [])).2.1
  let chat_history :=
    s.history.foldr (fun p acc => ChatMsg.human p.1 :: ChatMsg.ai p.2 :: acc) []
  let r := generate_rag_response invoke prompt chat_history
  let s' :=
    { s with
        current_conversation := s.current_conversation ++ [("ai".data, r.1, ts)],
        history := s.history ++ [(prompt, r.1)],
        last_retrieved := r.2,
        processing := false }
  (s', save_history s'.history HISTORY_FILE fs)

/-- Result of one submit-button round trip in `main`. -/
structure SubmitOutcome where
  state : SessionState
  fs : FS
  warned : Bool
  generationAttempted : Bool

/-- Lines 247-250 of `main`: `if process_question(): handle_response(...)`.
A generation call is attempted exactly when `process_question` returned
true. -/
def submitPipeline (invoke : RagQuery → Except (List Char) ChainOutput)
    (prompt ts1 ts2 : List Char) (s : SessionState) (fs : FS) : SubmitOutcome :=
  let r := process_question prompt ts1 s
  if r.proceed then
    let hr := handle_response invoke ts2 r.state fs
    ⟨hr.1, hr.2, r.warned, true⟩
  else ⟨r.state, fs, r.warned, false⟩

/-! ### Observation helpers used only in theorem statements -/

/-- The JSON value of one (question, answer) pair. -/
def pairJson (p : List Char × List Char) : JsonV :=
  JsonV.arr [JsonV.str p.1, JsonV.str p.2]

/-- The JSON value `save_history` serialises. -/
def histJson (h : List (List Char × List Char)) : JsonV :=
  JsonV.arr (h.map pairJson)

/-- Read a JSON array of 2-element string arrays back as pairs. -/
def jsonPairsList : List JsonV → Option (List (List Char × List Char))
  | [] => some []
  | JsonV.arr [JsonV.str q, JsonV.str a] :: rest =>
    (jsonPairsList rest).map (fun t => (q, a) :: t)
  | _ => none

/-- Read a JSON value back as a list of (question, answer) pairs. -/
def jsonPairs : JsonV → Option (List (List Char × List Char))
  | JsonV.arr xs => jsonPairsList xs
  | _ => none

/-- Number of positions at which `pat` occurs in `s`. -/
def countSub (pat : List Char) : List Char → Nat
  | [] => 0
  | c :: rest => (if pat.isPrefixOf (c :: rest) then 1 else 0) + countSub pat rest

/-! ### Round-trip of the JSON text written by `save_history` -/

/-- The hex pair emitted for a control character reads back as its code. -/
theorem hex_rt : ∀ n : Nat, n < 32 →
    hex4 '0' '0' (hexDig (n / 16)) (hexDig (n % 16)) = some n := by decide

/-- A JSON string literal produced by CPython's escaper parses back to
the original characters, leaving the input after the closing quote. -/
theorem parseStrBody_escString (s rest : List Char) :
    parseStrBody (escString s ++ ('"' :: rest)) = some (s, rest) := by
  induction s with
  | nil => rw [parseStrBody.eq_def]; simp [escString, escWith]
  | cons c s ih =>
    have hesc : escString (c :: s) = escChar c ++ escString s := rfl
    rw [hesc, List.append_assoc]
    unfold escChar
    by_cases h1 : c = '"'
    · subst h1; rw [parseStrBody.eq_def]; simp [ih]
    · by_cases h2 : c = '\\'
      · subst h2; rw [parseStrBody.eq_def]; simp [ih]
      · by_cases h3 : c = '\x08'
        · subst h3; rw [parseStrBody.eq_def]; simp [ih]
        · by_cases h4 : c = '\x0c'
          · subst h4; rw [parseStrBody.eq_def]; simp [ih]
          · by_cases h5 : c = '\n'
            · subst h5; rw [parseStrBody.eq_def]; simp [ih]
            · by_cases h6 : c = '\x0d'
              · subst h6; rw [parseStrBody.eq_def]; simp [ih]
              · by_cases h7 : c = '\t'
                · subst h7; rw [parseStrBody.eq_def]; simp [ih]
                · by_cases h8 : c.toNat < 32
                  · simp only [if_neg h1, if_neg h2, if_neg h3, if_neg h4, if_neg h5,
                      if_neg h6, if_neg h7, if_pos h8]
                    rw [parseStrBody.eq_def]
                    simp [hex_rt c.toNat h8, ih, Char.ofNat_toNat,
                      Nat.lt_of_lt_of_le h8 (by omega : (32:Nat) ≤ 55296)]
                  · simp only [if_neg h1, if_neg h2, if_neg h3, if_neg h4, if_neg h5,
                      if_neg h6, if_neg h7, if_neg h8]
                    rw [parseStrBody.eq_def]
                    simp [h1, h2, h8, ih]

theorem skipWs_space (s : List Char) : skipWs (' ' :: s) = skipWs s := rfl

theorem skipWs_nl (s : List Char) : skipWs ('\n' :: s) = skipWs s := rfl

theorem skipWs_lbrack (s : List Char) : skipWs ('[' :: s) = '[' :: s := rfl

theorem skipWs_rbrack (s : List Char) : skipWs (']' :: s) = ']' :: s := rfl

theorem skipWs_quote (s : List Char) : skipWs ('"' :: s) = '"' :: s := rfl

theorem skipWs_comma (s : List Char) : skipWs (',' :: s) = ',' :: s := rfl

theorem skipWs_skipWs (s : List Char) : skipWs (skipWs s) = skipWs s := by
  induction s with
  | nil => rfl
  | cons c s ih =>
    by_cases h : isJsonWs c = true
    · simp [skipWs, h, ih]
    · simp [skipWs, h]

/-- `parseVal` only looks at its input through `skipWs`. -/
theorem parseVal_ws_congr (n : Nat) (s s' : List Char) (h : skipWs s = skipWs s') :
    parseVal n s = parseVal n s' := by
  cases n with
  | zero => rfl
  | succ m =>
    rw [parseVal.eq_def, parseVal.eq_def]
    simp only [h]

theorem parseVal_nl (n : Nat) (s : List Char) : parseVal n ('\n' :: s) = parseVal n s :=
  parseVal_ws_congr n _ s (skipWs_nl s)

/-- One dumped pair parses back to its JSON value. -/
theorem parseVal_dumpPair (f : Nat) (p : List Char × List Char) (rest : List Char) :
    parseVal (f + 4) (dumpPair p ++ rest) = some (pairJson p, rest) := by
  simp only [dumpPair, dumpPairTail, List.cons_append, List.append_assoc, List.nil_append]
  rw [parseVal.eq_def]
  simp only [skipWs_space, skipWs_nl, skipWs_lbrack]
  rw [parseArrBody.eq_def]
  simp only [skipWs_space, skipWs_nl, skipWs_quote]
  rw [parseVal.eq_def]
  simp [skipWs_quote, parseStrBody_escString]
  rw [parseArrTail.eq_def]
  simp [skipWs_comma]
  rw [parseVal.eq_def]
  simp [skipWs_space, skipWs_nl, skipWs_quote, parseStrBody_escString]
  rw [parseArrTail.eq_def]
  simp [skipWs_space, skipWs_nl, skipWs_rbrack, pairJson]

theorem skipWs_dumpPair (p : List Char × List Char) (y : List Char) :
    skipWs (dumpPair p ++ y) = '[' :: (dumpPairTail p ++ y) := by
  simp [dumpPair, List.cons_append, skipWs_space, skipWs_lbrack, List.append_assoc]

/-- Unfolding of `parseArrBody` when the next significant character is
not the closing bracket. -/
theorem parseArrBody_cons (fuel : Nat) (s : List Char) (c : Char) (rest : List Char)
    (h : skipWs s = c :: rest) (hne : ¬ c = ']') :
    parseArrBody (fuel + 1) s =
      (parseVal fuel s).bind (fun p =>
        (parseArrTail fuel p.2).map (fun q => (JsonV.arr (p.1 :: q.1), q.2))) := by
  rw [parseArrBody.eq_def]
  simp only [h, if_neg hne]
  have hv : parseVal fuel (c :: rest) = parseVal fuel s := by
    refine parseVal_ws_congr fuel _ s ?_
    rw [← h, skipWs_skipWs]
  rw [hv]

/-- The dumped items after the first parse back to their JSON values. -/
theorem parseArrTail_dumpTail (t : List (List Char × List Char)) :
    ∀ (f : Nat) (rest : List Char),
      parseArrTail (t.length + f + 4) (dumpTail t ++ ('\n' :: ']' :: rest)) =
        some (t.map pairJson, rest) := by
  induction t with
  | nil =>
    intro f rest
    rw [parseArrTail.eq_def]
    simp [dumpTail, skipWs_nl, skipWs_rbrack]
  | cons p t ih =>
    intro f rest
    rw [dumpTail]
    simp only [List.cons_append, List.append_assoc, List.nil_append, List.length_cons]
    rw [parseArrTail.eq_def]
    simp [skipWs_comma]
    have e : t.length + 1 + f + 3 = t.length + f + 4 := by omega
    rw [e, parseVal_nl, parseVal_dumpPair]
    simp [ih f rest]

/-- The dumped history parses back to its JSON value, consuming all
input, at any sufficient fuel. -/
theorem parseVal_dumpHistory (h : List (List Char × List Char)) :
    ∀ f : Nat, parseVal (h.length + f + 5) (dumpHistory h) = some (histJson h, []) := by
  cases h with
  | nil =>
    intro f
    rw [dumpHistory, parseVal.eq_def]
    simp only [List.length_nil, skipWs_lbrack]
    rw [parseArrBody.eq_def]
    simp [skipWs_rbrack, histJson]
  | cons p t =>
    intro f
    rw [dumpHistory, parseVal.eq_def]
    simp only [List.length_cons, skipWs_lbrack]
    have e : t.length + 1 + f + 4 = (t.length + f + 4) + 1 := by omega
    rw [e, parseArrBody_cons (t.length + f + 4) _ '['
      (dumpPairTail p ++ (dumpTail t ++ ('\n' :: ']' :: [])))
      (by rw [skipWs_nl, skipWs_dumpPair]) (by decide)]
    rw [parseVal_nl, parseVal_dumpPair, Option.some_bind]
    rw [parseArrTail_dumpTail t f []]
    simp [histJson]

theorem len_dumpTail (t : List (List Char × List Char)) : t.length ≤ (dumpTail t).length := by
  induction t with
  | nil => simp [dumpTail]
  | cons p t ih =>
    rw [dumpTail]
    simp only [List.length_cons, List.length_append]
    omega

theorem len_dumpHistory (h : List (List Char × List Char)) :
    h.length + 2 ≤ (dumpHistory h).length := by
  cases h with
  | nil => simp [dumpHistory]
  | cons p t =>
    have := len_dumpTail t
    rw [dumpHistory]
    simp only [List.length_cons, List.length_append]
    omega

/-- `json.loads` inverts the text `json.dump(..., indent=2,
ensure_ascii=False)` wrote for a history. -/
theorem json_loads_dumpHistory (h : List (List Char × List Char)) :
    json_loads (dumpHistory h) = some (histJson h) := by
  unfold json_loads
  have hlen := len_dumpHistory h
  have e : (dumpHistory h).length + 3 =
      h.length + ((dumpHistory h).length - (h.length + 2)) + 5 := by omega
  rw [e, parseVal_dumpHistory h ((dumpHistory h).length - (h.length + 2))]
  rfl

theorem jsonPairsList_map (h : List (List Char × List Char)) :
    jsonPairsList (h.map pairJson) = some h := by
  induction h with
  | nil => rfl
  | cons p t ih => simp [pairJson, jsonPairsList, ih]

/-!
## Claims
-/

/-- C7: History persistence round-trips.  For every sequence of
(question, answer) string pairs, writing it with `save_history` and then
reading the same file with `load_history` yields a JSON value whose
pairs are exactly the saved ones, in order.  The statement quantifies
over all strings, so accented (and any other non-ASCII) characters are
covered: they round-trip unchanged through the `ensure_ascii=False`
escaping and the parser. -/
theorem save_then_load_history_round_trip
    (h : List (List Char × List Char)) (file : List Char) (fs : FS) :
    jsonPairs (load_history file (save_history h file fs)) = some h := by
  unfold load_history save_history
  simp [json_loads_dumpHistory h, histJson, jsonPairs, jsonPairsList_map h]

/-- C2: every chain invocation that raises is caught by
`generate_rag_response`, which returns the error-marker answer
`"Erreur lors du traitement: " ++ str(e)` paired with the empty
document list.  No fault propagates: the function is total, and the
`Except.error` branch is the only non-`ok` path. -/
theorem generate_rag_response_catches_errors
    (invoke : RagQuery → Except (List Char) ChainOutput)
    (prompt : List Char) (chat_history : List ChatMsg) (e : List Char)
    (h : invoke ⟨prompt, chat_history⟩ = Except.error e) :
    generate_rag_response invoke prompt chat_history =
      ("Erreur lors du traitement: ".data ++ e, []) := by
  unfold generate_rag_response
  rw [h]

/-- Witness for C2 at a concrete failing invocation. -/
theorem generate_rag_response_catches_errors_witness :
    generate_rag_response (fun _ => Except.error "boom".data) "q".data [] =
      ("Erreur lors du traitement: ".data ++ "boom".data, []) :=
  generate_rag_response_catches_errors _ "q".data [] "boom".data rfl

/-- C3: the two initialization paths of `build_or_load_chroma` are
mutually exclusive.  When the persisted directory exists and is
non-empty, the existing index is loaded, whatever texts were supplied
(the build path is never taken); otherwise, with nonempty texts, a new
index is built from exactly those texts and persisted to the
directory. -/
theorem build_or_load_chroma_exclusive (texts : List (List Char)) (dirExists : Bool)
    (listing : List (List Char)) (dir : List Char) :
    (dirExists = true → listing ≠ [] →
      build_or_load_chroma texts dirExists listing dir =
        some (ChromaIndex.loadExisting dir)) ∧
    (¬(dirExists = true ∧ listing ≠ []) → texts ≠ [] →
      build_or_load_chroma texts dirExists listing dir =
        some (ChromaIndex.buildFrom texts dir)) := by
  constructor
  · intro h1 h2
    unfold build_or_load_chroma
    have hl : listing.isEmpty = false := by
      cases listing
      · exact absurd rfl h2
      · rfl
    simp [h1, hl]
  · intro h1 h2
    have ht : texts.isEmpty = false := by
      cases texts
      · exact absurd rfl h2
      · rfl
    unfold build_or_load_chroma
    cases dirExists
    · simp [ht]
    · have hl : listing = [] := by
        by_contra hc
        exact h1 ⟨rfl, hc⟩
      subst hl
      simp [ht]

/-- Witness for C3: one concrete run through each path. -/
theorem build_or_load_chroma_exclusive_witness :
    build_or_load_chroma ["t".data] true ["f".data] "d".data =
      some (ChromaIndex.loadExisting "d".data) ∧
    build_or_load_chroma ["t".data] false [] "d".data =
      some (ChromaIndex.buildFrom ["t".data] "d".data) :=
  ⟨(build_or_load_chroma_exclusive ["t".data] true ["f".data] "d".data).1 rfl (by simp),
   (build_or_load_chroma_exclusive ["t".data] false [] "d".data).2 (by simp) (by simp)⟩

/-- C4: with no usable persisted index and an empty set of loaded
Document Blocks, `build_or_load_chroma` yields no index,
`initialize_rag_system` returns `None`, and `main` shows the startup
error and returns before serving anything. -/
theorem initialize_rag_fail_fast (corpus : Option (List Char)) (dirExists : Bool)
    (listing : List (List Char)) (dir : List Char)
    (hidx : ¬(dirExists = true ∧ listing ≠ []))
    (htexts : load_texts corpus = []) :
    initialize_rag_system dir corpus dirExists listing = none ∧
    mainStartup corpus dirExists listing = StartupOutcome.initError := by
  have hb : ∀ d, build_or_load_chroma (load_texts corpus) dirExists listing d = none := by
    intro d
    unfold build_or_load_chroma
    rw [htexts]
    cases dirExists
    · simp
    · have hl : listing = [] := by
        by_contra hc
        exact hidx ⟨rfl, hc⟩
      subst hl
      simp
  refine ⟨?_, ?_⟩
  · unfold initialize_rag_system
    simp [hb dir]
  · unfold mainStartup initialize_rag_system
    simp [hb CHROMA_DIR]

/-- Witness for C4: missing corpus file, no persisted directory. -/
theorem initialize_rag_fail_fast_witness :
    initialize_rag_system "d".data none false [] = none ∧
    mainStartup none false [] = StartupOutcome.initError :=
  initialize_rag_fail_fast none false [] "d".data (by simp) rfl

/-- C8: an absent history file, and a present file whose contents do not
parse as JSON, both make `load_history` return the empty list; the bare
`except:` means no fault escapes (the model function is total). -/
theorem load_history_fault_empty (file : List Char) (fs : FS) :
    (fs file = none → load_history file fs = JsonV.arr []) ∧
    (∀ content, fs file = some content → json_loads content = none →
      load_history file fs = JsonV.arr []) := by
  constructor
  · intro h
    unfold load_history
    rw [h]
  · intro content h1 h2
    unfold load_history
    rw [h1]
    simp [h2]

/-- A filesystem with no files at all. -/
def fsEmpty : FS := fun _ => none

/-- A filesystem whose history file holds text that is not JSON. -/
def fsCorrupt : FS := fun p => if p = HISTORY_FILE then some "not json".data else none

/-- Witness for C8: the absent-file and corrupt-file cases, concretely. -/
theorem load_history_fault_empty_witness :
    load_history HISTORY_FILE fsEmpty = JsonV.arr [] ∧
    load_history HISTORY_FILE fsCorrupt = JsonV.arr [] :=
  ⟨(load_history_fault_empty HISTORY_FILE fsEmpty).1 rfl,
   (load_history_fault_empty HISTORY_FILE fsCorrupt).2 "not json".data (by rfl) (by rfl)⟩

/-- C10: `load_history` performs no shape validation: whenever the file's
contents parse as JSON, the parsed value is returned as-is — whether or
not it is a list of 2-element string pairs. -/
theorem load_history_no_validation (file : List Char) (fs : FS)
    (content : List Char) (v : JsonV)
    (h1 : fs file = some content) (h2 : json_loads content = some v) :
    load_history file fs = v := by
  unfold load_history
  rw [h1]
  simp [h2]

/-- A filesystem whose history file holds the JSON object text. -/
def fsObjHistory : FS := fun p => if p = HISTORY_FILE then some ('\x7b' :: '\x7d' :: []) else none

/-- Witness for C10: a JSON object — not a list of pairs — is returned
unchanged instead of being replaced by the empty list. -/
theorem load_history_no_validation_witness :
    load_history HISTORY_FILE fsObjHistory = JsonV.obj [] :=
  load_history_no_validation HISTORY_FILE fsObjHistory ('\x7b' :: '\x7d' :: [])
    (JsonV.obj []) (by rfl) (by rfl)

/-- C5: `load_texts` is total (the model has no failure path): a missing
corpus yields the empty list, and otherwise the output has exactly one
entry per line whose parse-and-format step succeeds — every line whose
processing raises contributes nothing and processing continues. -/
theorem load_texts_length_counts_good_lines :
    load_texts none = [] ∧
    ∀ content : List Char,
      (load_texts (some content)).length =
        (pyLines content).countP (fun line => (processLine line).isSome) := by
  refine ⟨rfl, ?_⟩
  intro content
  show ((pyLines content).filterMap processLine).length = _
  generalize pyLines content = ls
  induction ls with
  | nil => rfl
  | cons l ls ih =>
    rw [List.filterMap_cons, List.countP_cons]
    cases h : processLine l
    · simp [h, ih]
    · simp [h, ih]

/-- The session state at the start of a fresh session. -/
def s0 : SessionState := ⟨[], [], false, [], 0, []⟩

/-- C6 counterexample: a whitespace-only question is not rejected.
`process_question` tests `if not prompt`, which is false for `" "`, so
the question proceeds: a user turn is appended and the submit pipeline
does attempt a generation call — contradicting the claim for
whitespace-only input. -/
theorem process_question_whitespace_cex :
    (process_question [' '] "12:00".data s0).proceed = true ∧
    (process_question [' '] "12:00".data s0).state.current_conversation =
      [("user".data, [' '], "12:00".data)] ∧
    (submitPipeline (fun _ => Except.ok ⟨"a".data, none⟩) [' '] "12:00".data "12:01".data
        s0 fsEmpty).generationAttempted = true := by
  refine ⟨rfl, rfl, rfl⟩

/-- C6 amended: only the exactly-empty question is rejected — with a
warning, returning false, leaving the state unchanged and attempting no
generation; any nonempty question (whitespace-only ones included)
proceeds. -/
theorem process_question_rejects_empty_only (prompt ts ts2 : List Char) (s : SessionState)
    (fs : FS) (invoke : RagQuery → Except (List Char) ChainOutput) :
    (prompt = [] →
      process_question prompt ts s = ⟨false, true, s⟩ ∧
      (submitPipeline invoke prompt ts ts2 s fs).generationAttempted = false ∧
      (submitPipeline invoke prompt ts ts2 s fs).state = s) ∧
    (prompt ≠ [] → (process_question prompt ts s).proceed = true) := by
  constructor
  · rintro rfl
    exact ⟨rfl, rfl, rfl⟩
  · intro h
    have hp : prompt.isEmpty = false := by
      cases prompt
      · exact absurd rfl h
      · rfl
    unfold process_question
    simp [hp]

/-- Witness for the amended C6 at concrete inputs. -/
theorem process_question_rejects_empty_only_witness :
    process_question [] "12:00".data s0 = ⟨false, true, s0⟩ ∧
    (process_question ['a'] "12:00".data s0).proceed = true :=
  ⟨((process_question_rejects_empty_only [] "12:00".data "12:01".data s0 fsEmpty
      (fun _ => Except.ok ⟨"a".data, none⟩)).1 rfl).1,
   (process_question_rejects_empty_only ['a'] "12:00".data "12:01".data s0 fsEmpty
      (fun _ => Except.ok ⟨"a".data, none⟩)).2 (by simp)⟩

/-- A key absent from a decoded dict makes `get` return its default. -/
theorem dictGet_of_not_hasKey (kvs : List (List Char × JsonV)) (k : List Char) (d : JsonV)
    (h : hasKey kvs k = false) : dictGet kvs k d = d := by
  unfold hasKey at h
  unfold dictGet
  cases hf : kvs.find? (fun p => p.1 = k)
  · rfl
  · rw [hf] at h
    simp at h

/-- Joining the empty list yields the empty string. -/
theorem pyJoin_arr_nil (sep : List Char) : pyJoin sep (JsonV.arr []) = some [] := rfl

/-- A corpus line with no optional fields: only the name is present. -/
def demoLine : List Char := "\x7b\"caption_latin\": \"X\"\x7d".data

/-- The Document Block `load_texts` renders for `demoLine`. -/
def demoBlock : List Char :=
  ("\n                Nom: X\n                Naissance: Non spécifié" ++
   "\n                Genre: \n                Pays: " ++
   "\n                Région: \n                Postes: \n                ").data

set_option maxRecDepth 4000 in
/-- C1 counterexample: for a record missing all five optional fields the
rendered block carries the `"Non spécifié"` sentinel exactly once (for
the birth date) — not once per missing field — and the gender position
holds the empty string (the text `"Genre: "` is immediately followed by
the newline), which the claim forbids. -/
theorem load_texts_sentinel_cex :
    load_texts (some demoLine) = [demoBlock] ∧
    countSub nonSpecifie demoBlock = 1 ∧
    countSub ("Genre: \n".data) demoBlock = 1 := by
  exact ⟨rfl, rfl, rfl⟩

/-- C1 amended: when the optional fields are all absent from a record's
properties, the rendered block substitutes `"Non spécifié"` for the
birth date only; gender, country, sub-national area and positions render
as empty strings. -/
theorem load_texts_missing_optional_fields (ekvs pkvs : List (List Char × JsonV))
    (hprops : dictGet ekvs "properties".data (JsonV.obj []) = JsonV.obj pkvs)
    (hbd : hasKey pkvs "birthDate".data = false)
    (hpos : hasKey pkvs "position".data = false)
    (hcty : hasKey pkvs "country".data = false)
    (hsub : hasKey pkvs "subnationalArea".data = false)
    (hgen : hasKey pkvs "gender".data = false) :
    processEntry (JsonV.obj ekvs) =
      some (renderBlock
        (pyStr (dictGet ekvs "caption_latin".data (JsonV.str "Inconnu".data)))
        nonSpecifie [] [] [] []) := by
  unfold processEntry
  simp only [asDict, hprops, Option.bind_eq_bind, Option.some_bind]
  simp only [dictGet_of_not_hasKey _ _ _ hbd, dictGet_of_not_hasKey _ _ _ hpos,
    dictGet_of_not_hasKey _ _ _ hcty, dictGet_of_not_hasKey _ _ _ hsub,
    dictGet_of_not_hasKey _ _ _ hgen]
  simp [jsonTruthy, pyJoin_arr_nil]

/-- Witness for the amended C1: the record of `demoLine`, concretely. -/
theorem load_texts_missing_optional_fields_witness :
    processEntry (JsonV.obj [("caption_latin".data, JsonV.str ['X'])]) =
      some (renderBlock ['X'] nonSpecifie [] [] [] []) := by
  have h := load_texts_missing_optional_fields
    [("caption_latin".data, JsonV.str ['X'])] [] rfl rfl rfl rfl rfl rfl
  simpa using h

/-- A document the retriever can return. -/
def demoDoc : LCDocument := ⟨"doc".data⟩

/-- A chain environment in which every step succeeds and retrieval
returns one document. -/
def demoEnv : ChainEnv :=
  ⟨fun q _ => Except.ok q, fun _ => Except.ok [demoDoc], fun _ _ => Except.ok "ans".data⟩

/-- C9 counterexample: in a run where retrieval returned a nonempty
document list and generation succeeded, `generate_rag_response` still
returns the empty Retrieval Result — the chain is created with
`return_source_documents=False`, so the documents used are discarded,
contradicting the claim that they are returned alongside the answer. -/
theorem generate_rag_response_discards_docs_cex :
    demoEnv.retrieve "q".data = Except.ok [demoDoc] ∧
    chainInvoke (create_rag_chain load_llm (ChromaIndex.loadExisting CHROMA_DIR)) demoEnv
      ⟨"q".data, []⟩ = Except.ok ⟨"ans".data, none⟩ ∧
    generate_rag_response
      (chainInvoke (create_rag_chain load_llm (ChromaIndex.loadExisting CHROMA_DIR)) demoEnv)
      "q".data [] = ("ans".data, []) := by
  exact ⟨rfl, rfl, rfl⟩

/-- C9 amended: every successful generation call through a chain built by
`create_rag_chain` yields an output dict without `source_documents`
(the chain sets `return_source_documents=False`), so
`generate_rag_response` returns the answer paired with the empty list. -/
theorem generate_rag_response_success_returns_empty
    (llm : LLM) (idx : ChromaIndex) (env : ChainEnv) (q : List Char)
    (hist : List ChatMsg) (out : ChainOutput)
    (h : chainInvoke (create_rag_chain llm idx) env ⟨q, hist⟩ = Except.ok out) :
    out.source_documents = none ∧
    generate_rag_response (chainInvoke (create_rag_chain llm idx) env) q hist =
      (out.answer, []) := by
  have hsd : out.source_documents = none := by
    unfold chainInvoke at h
    split at h
    · exact Except.noConfusion h
    · split at h
      · exact Except.noConfusion h
      · split at h
        · exact Except.noConfusion h
        · cases h
          simp [create_rag_chain]
  refine ⟨hsd, ?_⟩
  unfold generate_rag_response
  rw [h]
  simp [hsd]

/-- Witness for the amended C9 at a concrete successful run. -/
theorem generate_rag_response_success_returns_empty_witness :
    (ChainOutput.mk "ans".data none).source_documents = none ∧
    generate_rag_response
      (chainInvoke (create_rag_chain load_llm (ChromaIndex.buildFrom [] CHROMA_DIR)) demoEnv)
      "q".data [] = ("ans".data, []) :=
  generate_rag_response_success_returns_empty load_llm (ChromaIndex.buildFrom [] CHROMA_DIR)
    demoEnv "q".data [] ⟨"ans".data, none⟩ rfl

end ChatbotRag
